import Mathlib

/-!
Verification development for the `ash-bootstrap` crate: a shallow embedding of
the decision logic in `src/device.rs` and `src/swapchain.rs` (feature
negotiation, physical-device selection, queue-role assignment and swapchain
parameter negotiation), together with theorems settling the specification
claims about that logic.

Vulkan `Bool32` fields are modelled as `Nat` (their `u32` value), native
handles as `Nat`, C strings as `String` (the crate's `streq` is exact
C-string equality), fallible native driver calls as `Except Int _` values
(`Int` standing for the `vk::Result` error code), and a Rust panic as
`Option.none` / `Option`-valued results.
-/

namespace Ash

/-! ## Feature model (`vk::PhysicalDeviceFeatures`, `src/device.rs`)

`vk::PhysicalDeviceFeatures` is a struct of 55 independent `Bool32` fields;
the crate manipulates it one field at a time through the macros
`check_required_feature!` and `maybe_enable_feature!`, applied uniformly to
every field.  We model the struct as a function from the enumeration of its
field names to the field's `u32` value. -/

inductive FeatureFlag where
  | robust_buffer_access
  | full_draw_index_uint32
  | image_cube_array
  | independent_blend
  | geometry_shader
  | tessellation_shader
  | sample_rate_shading
  | dual_src_blend
  | logic_op
  | multi_draw_indirect
  | draw_indirect_first_instance
  | depth_clamp
  | depth_bias_clamp
  | fill_mode_non_solid
  | depth_bounds
  | wide_lines
  | large_points
  | alpha_to_one
  | multi_viewport
  | sampler_anisotropy
  | texture_compression_etc2
  | texture_compression_astc_ldr
  | texture_compression_bc
  | occlusion_query_precise
  | pipeline_statistics_query
  | vertex_pipeline_stores_and_atomics
  | fragment_stores_and_atomics
  | shader_tessellation_and_geometry_point_size
  | shader_image_gather_extended
  | shader_storage_image_extended_formats
  | shader_storage_image_multisample
  | shader_storage_image_read_without_format
  | shader_storage_image_write_without_format
  | shader_uniform_buffer_array_dynamic_indexing
  | shader_sampled_image_array_dynamic_indexing
  | shader_storage_buffer_array_dynamic_indexing
  | shader_storage_image_array_dynamic_indexing
  | shader_clip_distance
  | shader_cull_distance
  | shader_float64
  | shader_int64
  | shader_int16
  | shader_resource_residency
  | shader_resource_min_lod
  | sparse_binding
  | sparse_residency_buffer
  | sparse_residency_image2_d
  | sparse_residency_image3_d
  | sparse_residency2_samples
  | sparse_residency4_samples
  | sparse_residency8_samples
  | sparse_residency16_samples
  | sparse_residency_aliased
  | variable_multisample_rate
  | inherited_queries
  deriving DecidableEq

/-- All 55 feature fields of `vk::PhysicalDeviceFeatures`, in declaration
order (the order `has_required_features` / `enable_optional_features` visit
them; the order is irrelevant to their result). -/
def allFeatureFlags : List FeatureFlag :=
  [.robust_buffer_access, .full_draw_index_uint32, .image_cube_array,
   .independent_blend, .geometry_shader, .tessellation_shader,
   .sample_rate_shading, .dual_src_blend, .logic_op, .multi_draw_indirect,
   .draw_indirect_first_instance, .depth_clamp, .depth_bias_clamp,
   .fill_mode_non_solid, .depth_bounds, .wide_lines, .large_points,
   .alpha_to_one, .multi_viewport, .sampler_anisotropy,
   .texture_compression_etc2, .texture_compression_astc_ldr,
   .texture_compression_bc, .occlusion_query_precise,
   .pipeline_statistics_query, .vertex_pipeline_stores_and_atomics,
   .fragment_stores_and_atomics, .shader_tessellation_and_geometry_point_size,
   .shader_image_gather_extended, .shader_storage_image_extended_formats,
   .shader_storage_image_multisample, .shader_storage_image_read_without_format,
   .shader_storage_image_write_without_format,
   .shader_uniform_buffer_array_dynamic_indexing,
   .shader_sampled_image_array_dynamic_indexing,
   .shader_storage_buffer_array_dynamic_indexing,
   .shader_storage_image_array_dynamic_indexing, .shader_clip_distance,
   .shader_cull_distance, .shader_float64, .shader_int64, .shader_int16,
   .shader_resource_residency, .shader_resource_min_lod, .sparse_binding,
   .sparse_residency_buffer, .sparse_residency_image2_d,
   .sparse_residency_image3_d, .sparse_residency2_samples,
   .sparse_residency4_samples, .sparse_residency8_samples,
   .sparse_residency16_samples, .sparse_residency_aliased,
   .variable_multisample_rate, .inherited_queries]

/-- A `vk::PhysicalDeviceFeatures` value: each field's `Bool32` (`u32`)
value. -/
def Features : Type := FeatureFlag → Nat

/-- Rust's `!` on a `u32` is bitwise complement: every one of the 32 bits is
flipped, so `!x = 2^32 - 1 - (x mod 2^32)`. -/
def bitwise_not_u32 (x : Nat) : Nat := 4294967295 - x % 4294967296

/-- One expansion of `check_required_feature!(available, required, field)`
(`src/device.rs` lines 427-433): the macro executes
`if required.field != 0 && !available.field == 0 { return false; }`.
This function returns `false` exactly when that early return fires. -/
def check_required_feature (available required : Nat) : Bool :=
  !(required != 0 && bitwise_not_u32 available == 0)

/-- Function `has_required_features(available, required)` (`src/device.rs` lines
435-524): runs `check_required_feature!` on every field, returning `false`
at the first field whose check fires, else `true`. -/
def has_required_features (available required : Features) : Bool :=
  allFeatureFlags.all fun f => check_required_feature (available f) (required f)

/-- One expansion of `maybe_enable_feature!(available, optional, field)`
(`src/device.rs` lines 526-534): the macro executes
`available.field = if available.field != 0 { optional.field } else { 0 }`.
This function returns the new value of `available.field`. -/
def maybe_enable_feature (available optional : Nat) : Nat :=
  if available != 0 then optional else 0

/-- Function `enable_optional_features(available, optional)` (`src/device.rs` lines
536-623): overwrites every field of `available` per
`maybe_enable_feature!`; we return the resulting struct. -/
def enable_optional_features (available optional : Features) : Features :=
  fun f => maybe_enable_feature (available f) (optional f)

/-- The feature stage of `DeviceBuilder::build` (`src/device.rs` lines
105-119): start from the queried hardware features when either overlay was
given (else from the all-zero default), then run `enable_optional_features`
with the required overlay, then with the optional overlay. -/
def build_enabled_features (available : Features)
    (required optional : Option Features) : Features :=
  let enabled : Features :=
    if required.isSome || optional.isSome then available else fun _ => 0
  let enabled : Features :=
    match required with
    | some r => enable_optional_features enabled r
    | none => enabled
  match optional with
  | some o => enable_optional_features enabled o
  | none => enabled

/-! ## Queue families and role assignment (`src/device.rs`)

A `vk::QueueFamilyProperties` record matters to the crate only through the
GRAPHICS, COMPUTE and TRANSFER bits of its `queue_flags`; we model exactly
those three bits.  `queue_flags.contains(A | B)` is `a && b`;
`queue_flags.intersects(A | B)` is `a || b`. -/

structure QueueFamilyProperties where
  graphics : Bool
  compute : Bool
  transfer : Bool
  deriving DecidableEq

/-- The `for (i, qf) in list.iter().enumerate()` search pattern shared by
`find_graphics_queue`, `find_transfer_queue` and `find_compute_queue`:
return the index of the first element satisfying the predicate. -/
def find_index {α : Type} (p : α → Bool) : List α → Option Nat
  | [] => none
  | x :: rest => if p x then some 0 else Option.map Nat.succ (find_index p rest)

/-- Method `DeviceBuilder::find_graphics_queue` (`src/device.rs` lines 317-328):
first family whose flags contain GRAPHICS | COMPUTE. -/
def find_graphics_queue (queue_families : List QueueFamilyProperties) : Option Nat :=
  find_index (fun qf => qf.graphics && qf.compute) queue_families

/-- Method `DeviceBuilder::find_transfer_queue` (`src/device.rs` lines 349-361):
first family whose flags contain TRANSFER and intersect neither GRAPHICS nor
COMPUTE. -/
def find_transfer_queue (queue_families : List QueueFamilyProperties) : Option Nat :=
  find_index (fun qf => qf.transfer && !(qf.graphics || qf.compute)) queue_families

/-- Method `DeviceBuilder::find_compute_queue` (`src/device.rs` lines 363-373):
first family whose flags contain COMPUTE but not GRAPHICS. -/
def find_compute_queue (queue_families : List QueueFamilyProperties) : Option Nat :=
  find_index (fun qf => qf.compute && !qf.graphics) queue_families

/-- The loop body of `DeviceBuilder::find_present_queue` (`src/device.rs`
lines 330-347): `for i in 0..n { if support(i)? { return Ok(Some(i)) } }`.
`support i` models `get_physical_device_surface_support(device, i, surface)`;
the argument counts the remaining iterations starting at index `i`. -/
def find_present_from (support : Nat → Except Int Bool) (i : Nat) :
    Nat → Except Int (Option Nat)
  | 0 => Except.ok none
  | k + 1 =>
    match support i with
    | Except.error e => Except.error e
    | Except.ok true => Except.ok (some i)
    | Except.ok false => find_present_from support (i + 1) k

/-- Method `DeviceBuilder::find_present_queue` over `n` queue families: scan
indices `0..n`, propagating the first query error, returning the first
index reported present-capable, else `Ok(None)`. -/
def find_present_queue (support : Nat → Except Int Bool) (n : Nat) :
    Except Int (Option Nat) :=
  find_present_from support 0 n

/-- The present-queue resolution inside `DeviceBuilder::build`
(`src/device.rs` lines 148-156):
`self.surface.and_then(|s| find_present_queue(..).unwrap_or_default())`.
`unwrap_or_default()` on the `Result<Option<u32>, Error>` maps an `Err`
to `None` (the default of `Option<u32>`). -/
def resolve_present_queue (surface : Option Unit)
    (support : Nat → Except Int Bool) (n : Nat) : Option Nat :=
  match surface with
  | none => none
  | some _ =>
    match find_present_queue support n with
    | Except.ok r => r
    | Except.error _ => none

/-- The queue-role resolution block of `DeviceBuilder::build`
(`src/device.rs` lines 145-157): graphics, compute (with alias to graphics
via `.or`), present, transfer, in that order. -/
def resolve_queue_roles (surface : Option Unit)
    (queue_families : List QueueFamilyProperties)
    (support : Nat → Except Int Bool) :
    Option Nat × Option Nat × Option Nat × Option Nat :=
  let graphics_queue := find_graphics_queue queue_families
  let compute_queue := (find_compute_queue queue_families).or graphics_queue
  let present_queue := resolve_present_queue surface support queue_families.length
  let transfer_queue := find_transfer_queue queue_families
  (graphics_queue, compute_queue, present_queue, transfer_queue)

/-! ## Physical-device selection (`src/device.rs`) -/

/-- The `vk::PhysicalDeviceType` values the crate compares against. -/
inductive DeviceType where
  | discrete_gpu
  | integrated_gpu
  | other_type
  deriving DecidableEq

/-- Enum `PreferredDevice` (`src/device.rs` lines 33-37). -/
inductive PreferredDevice where
  | chosen (idx : Nat)
  | discrete
  | integrated

/-- The crate's `Error` enum (`src/error.rs`); the `Int` carries the native
`vk::Result` code of a failed driver call. -/
inductive Error where
  | loading_fail
  | vulkan_error (code : Int)
  | no_suitable_devices
  deriving DecidableEq

/-- One enumerated physical device together with the answers the native
query surface gives about it: its properties' `device_type`, its feature
set, the (fallible) result of `enumerate_device_extension_properties`
(extension names as exact strings), its queue-family table, and the
(fallible) per-family present-support answer for the builder's surface.
`handle` is the opaque `vk::PhysicalDevice` handle. -/
structure PhysicalDevice where
  handle : Nat
  device_type : DeviceType
  features : Features
  extensions : Except Int (List String)
  queue_families : List QueueFamilyProperties
  present_support : Nat → Except Int Bool

/-- The configuration `DeviceBuilder` accumulates (`src/device.rs` lines
23-31), restricted to what the selection/negotiation logic reads: extension
entries are kept as their names (the loader halves never influence
selection), and the surface as mere presence (per-device present answers
live in `PhysicalDevice.present_support`). -/
structure DeviceBuilderConfig where
  required_features : Option Features
  optional_features : Option Features
  required_extensions : List String
  optional_extensions : List String
  surface : Option Unit
  preferred_device : Option PreferredDevice
  needs_graphics : Bool

/-- Method `DeviceBuilder::is_device_suitable` (`src/device.rs` lines 266-315):
required features (via `has_required_features`), then required extensions
(each must match some available extension name by exact string equality,
as `streq` computes), then a graphics-capable family when
`needs_graphics`, then a present-capable family when a surface was given.
Query errors propagate via `?`. -/
def is_device_suitable (cfg : DeviceBuilderConfig) (pd : PhysicalDevice) :
    Except Int Bool :=
  if !(match cfg.required_features with
      | some required => has_required_features pd.features required
      | none => true) then
    Except.ok false
  else
    match (if cfg.required_extensions.isEmpty then Except.ok true
        else match pd.extensions with
          | Except.error e => Except.error e
          | Except.ok available =>
            Except.ok (cfg.required_extensions.all fun req =>
              available.any fun ext => ext == req) : Except Int Bool) with
    | Except.error e => Except.error e
    | Except.ok extOk =>
      if !extOk then
        Except.ok false
      else if cfg.needs_graphics && (find_graphics_queue pd.queue_families).isNone then
        Except.ok false
      else
        match cfg.surface with
        | some _ =>
          match find_present_queue pd.present_support pd.queue_families.length with
          | Except.error e => Except.error e
          | Except.ok r => if r.isNone then Except.ok false else Except.ok true
        | none => Except.ok true

/-- The fallback scan of `select_physical_device` (`src/device.rs` lines
256-261): first suitable device in enumeration order, errors propagating. -/
def scan_suitable (cfg : DeviceBuilderConfig) :
    List PhysicalDevice → Except Int (Option PhysicalDevice)
  | [] => Except.ok none
  | pd :: rest =>
    match is_device_suitable cfg pd with
    | Except.error e => Except.error e
    | Except.ok true => Except.ok (some pd)
    | Except.ok false => scan_suitable cfg rest

/-- The preference scans of `select_physical_device` (`src/device.rs` lines
233-252): first device whose `device_type` equals `ty` and which is
suitable; a non-matching or unsuitable device lets the loop continue. -/
def scan_suitable_with_type (cfg : DeviceBuilderConfig) (ty : DeviceType) :
    List PhysicalDevice → Except Int (Option PhysicalDevice)
  | [] => Except.ok none
  | pd :: rest =>
    if pd.device_type = ty then
      match is_device_suitable cfg pd with
      | Except.error e => Except.error e
      | Except.ok true => Except.ok (some pd)
      | Except.ok false => scan_suitable_with_type cfg ty rest
    else scan_suitable_with_type cfg ty rest

/-- The preference block of `select_physical_device` (`src/device.rs` lines
223-254).  `Chosen(idx)`: validate that index when in range.  `Discrete`:
scan for a suitable DISCRETE_GPU.  `Integrated`: the source scans for
DISCRETE_GPU here as well (lines 243-252 are identical to the Discrete
arm).  `none` means no preference. -/
def preferred_scan (cfg : DeviceBuilderConfig) (pds : List PhysicalDevice) :
    Except Int (Option PhysicalDevice) :=
  match cfg.preferred_device with
  | some (PreferredDevice.chosen idx) =>
    if h : idx < pds.length then
      match is_device_suitable cfg (pds.get ⟨idx, h⟩) with
      | Except.error e => Except.error e
      | Except.ok true => Except.ok (some (pds.get ⟨idx, h⟩))
      | Except.ok false => Except.ok none
    else Except.ok none
  | some PreferredDevice.discrete => scan_suitable_with_type cfg DeviceType.discrete_gpu pds
  | some PreferredDevice.integrated => scan_suitable_with_type cfg DeviceType.discrete_gpu pds
  | none => Except.ok none

/-- Method `DeviceBuilder::select_physical_device` (`src/device.rs` lines 218-264):
return the preference's pick if any, else the first suitable device in
enumeration order, else `Err(Error::NoSuitableDevices)`; query errors become
`Error::VulkanError`. -/
def select_physical_device (cfg : DeviceBuilderConfig)
    (pds : List PhysicalDevice) : Except Error PhysicalDevice :=
  match preferred_scan cfg pds with
  | Except.error e => Except.error (Error.vulkan_error e)
  | Except.ok (some pd) => Except.ok pd
  | Except.ok none =>
    match scan_suitable cfg pds with
    | Except.error e => Except.error (Error.vulkan_error e)
    | Except.ok (some pd) => Except.ok pd
    | Except.ok none => Except.error Error.no_suitable_devices

/-- The opening of `DeviceBuilder::build` (`src/device.rs` lines 100-103):
`enumerate_physical_devices()?` then `select_physical_device(..)?`.  Every
later step of `build` is sequenced after this via `?`, so an error here is
exactly what `build` returns. -/
def build_select (cfg : DeviceBuilderConfig)
    (enumerated : Except Int (List PhysicalDevice)) :
    Except Error PhysicalDevice :=
  match enumerated with
  | Except.error e => Except.error (Error.vulkan_error e)
  | Except.ok pds => select_physical_device cfg pds

/-- The present-resolution step of `DeviceBuilder::build` seen from the
caller (`src/device.rs` lines 148-156): the step itself cannot surface an
error, because `unwrap_or_default()` already folded any query failure into
`None`; `build` continues with the resolved (possibly unassigned) present
queue. -/
def build_present_stage (surface : Option Unit)
    (support : Nat → Except Int Bool) (n : Nat) : Except Error (Option Nat) :=
  Except.ok (resolve_present_queue surface support n)

/-! ## Swapchain negotiation (`src/swapchain.rs`)

`vk::Format` and `vk::ColorSpaceKHR` values are modelled by their numeric
codes (`vk::Format::B8G8R8A8_SRGB = 50`, `R8G8B8A8_SRGB = 43`,
`A8B8G8R8_SRGB_PACK32 = 57`, `ColorSpaceKHR::SRGB_NONLINEAR = 0`). -/

structure SurfaceFormatKHR where
  format : Nat
  color_space : Nat
  deriving DecidableEq

def FORMAT_B8G8R8A8_SRGB : Nat := 50

def FORMAT_R8G8B8A8_SRGB : Nat := 43

def FORMAT_A8B8G8R8_SRGB_PACK32 : Nat := 57

def COLOR_SPACE_SRGB_NONLINEAR : Nat := 0

/-- Constant `DEFAULT_PREFERRED_FORMATS` (`src/swapchain.rs` lines 28-41). -/
def DEFAULT_PREFERRED_FORMATS : List SurfaceFormatKHR :=
  [⟨FORMAT_B8G8R8A8_SRGB, COLOR_SPACE_SRGB_NONLINEAR⟩,
   ⟨FORMAT_R8G8B8A8_SRGB, COLOR_SPACE_SRGB_NONLINEAR⟩,
   ⟨FORMAT_A8B8G8R8_SRGB_PACK32, COLOR_SPACE_SRGB_NONLINEAR⟩]

/-- The nested loops of `SwapchainBuilder::pick_format` (`src/swapchain.rs`
lines 156-166): walk the preference chain, returning the first entry equal
to some supported entry. -/
def find_preferred_format :
    List SurfaceFormatKHR → List SurfaceFormatKHR → Option SurfaceFormatKHR
  | [], _ => none
  | p :: ps, supported =>
    if supported.contains p then some p else find_preferred_format ps supported

/-- Method `SwapchainBuilder::pick_format` (`src/swapchain.rs` lines 155-169): scan
`preferred_formats` chained with `DEFAULT_PREFERRED_FORMATS`; fall back to
`formats[0]` (modelled as `head?`, `none` standing for the index panic on an
empty list). -/
def pick_format (preferred_formats supported : List SurfaceFormatKHR) :
    Option SurfaceFormatKHR :=
  match find_preferred_format (preferred_formats ++ DEFAULT_PREFERRED_FORMATS) supported with
  | some f => some f
  | none => supported.head?

structure Extent2D where
  width : Nat
  height : Nat
  deriving DecidableEq

/-- The fields of `vk::SurfaceCapabilitiesKHR` that
`SwapchainBuilder::pick_extent` / `pick_image_count` read. -/
structure SurfaceCapabilitiesKHR where
  min_image_count : Nat
  max_image_count : Nat
  current_extent : Extent2D
  min_image_extent : Extent2D
  max_image_extent : Extent2D
  deriving DecidableEq

def U32_MAX : Nat := 4294967295

/-- Rust's `u32::clamp(self, min, max)`: asserts `min <= max` (panicking
otherwise, modelled as `none`), then bounds `self` into `[min, max]`. -/
def u32_clamp (v lo hi : Nat) : Option Nat :=
  if lo ≤ hi then some (min (max v lo) hi) else none

/-- Method `SwapchainBuilder::pick_extent` (`src/swapchain.rs` lines 187-205): when
both components of `current_extent` differ from `u32::MAX`, use
`current_extent`; else clamp the requested extent (default `(800, 600)`)
component-wise.  `extent` is the builder's requested logical extent. -/
def pick_extent (extent : Option (Nat × Nat))
    (capabilities : SurfaceCapabilitiesKHR) : Option Extent2D :=
  if capabilities.current_extent.width ≠ U32_MAX ∧
      capabilities.current_extent.height ≠ U32_MAX then
    some capabilities.current_extent
  else
    let wh := extent.getD (800, 600)
    match u32_clamp wh.1 capabilities.min_image_extent.width
        capabilities.max_image_extent.width,
      u32_clamp wh.2 capabilities.min_image_extent.height
        capabilities.max_image_extent.height with
    | some w, some h => some ⟨w, h⟩
    | _, _ => none

/-- Method `SwapchainBuilder::pick_image_count` (`src/swapchain.rs` lines 207-210):
`(if triple_buffered { 3 } else { 2 }).clamp(min_image_count,
max_image_count)`. -/
def pick_image_count (triple_buffered : Bool)
    (capabilities : SurfaceCapabilitiesKHR) : Option Nat :=
  u32_clamp (if triple_buffered then 3 else 2)
    capabilities.min_image_count capabilities.max_image_count

/-- The `queue_families` step of `SwapchainBuilder::build`
(`src/swapchain.rs` lines 127-130):
`[device.graphics_queue().unwrap().0, device.present_queue().unwrap().0]`.
Each argument is the device's stored `(family index, queue handle)` pair for
that role; `none` out means one of the `unwrap`s panicked. -/
def swapchain_queue_families (graphics_queue present_queue : Option (Nat × Nat)) :
    Option (Nat × Nat) := do
  let g ← graphics_queue
  let p ← present_queue
  pure (g.1, p.1)

/-! ## Specification-side notions and generic lemmas -/

/-- Position `i` holds the FIRST element of `l` satisfying `p`: the element
at `i` satisfies `p` and every earlier index holds an element that does
not.  This is the "first family such that ..., in enumeration order" notion
the specification's queue-role rules use. -/
def first_index_spec {α : Type} (p : α → Bool) (l : List α) (i : Nat) : Prop :=
  (∃ a, l.get? i = some a ∧ p a = true) ∧
  ∀ j, j < i → ∃ a, l.get? j = some a ∧ p a = false

theorem find_index_eq_some_iff {α : Type} (p : α → Bool) (l : List α) (i : Nat) :
    find_index p l = some i ↔ first_index_spec p l i := by
  induction l generalizing i with
  | nil =>
    simp [find_index, first_index_spec]
  | cons x rest ih =>
    by_cases hx : p x = true
    · simp only [find_index, hx, if_pos]
      constructor
      · intro h
        obtain rfl : i = 0 := by
          cases h
          rfl
        exact ⟨⟨x, rfl, hx⟩, fun j hj => absurd hj (Nat.not_lt_zero j)⟩
      · rintro ⟨_, hmin⟩
        cases i with
        | zero => rfl
        | succ k =>
          obtain ⟨a, ha, hpa⟩ := hmin 0 (Nat.succ_pos k)
          obtain rfl : a = x := by
            cases ha
            rfl
          rw [hx] at hpa
          cases hpa
    · have hx' : p x = false := by
        cases hpx : p x with
        | true => exact absurd hpx hx
        | false => rfl
      simp only [find_index, hx', Bool.false_eq_true, if_neg, not_false_iff]
      cases i with
      | zero =>
        simp only [Option.map_eq_some']
        constructor
        · rintro ⟨k, _, hk⟩
          cases hk
        · rintro ⟨⟨a, ha, hpa⟩, _⟩
          obtain rfl : a = x := by
            cases ha
            rfl
          rw [hx'] at hpa
          cases hpa
      | succ k =>
        constructor
        · intro h
          obtain ⟨k', hk', hkk⟩ := Option.map_eq_some'.mp h
          have hkk' : k' = k := Nat.succ_injective hkk
          rw [hkk'] at hk'
          obtain ⟨hfst, hmin⟩ := (ih k).mp hk'
          refine ⟨hfst, fun j hj => ?_⟩
          cases j with
          | zero => exact ⟨x, rfl, hx'⟩
          | succ j' => exact hmin j' (Nat.lt_of_succ_lt_succ hj)
        · rintro ⟨hfst, hmin⟩
          have hrest : first_index_spec p rest k :=
            ⟨hfst, fun j hj => hmin (j + 1) (Nat.succ_lt_succ hj)⟩
          rw [(ih k).mpr hrest]
          rfl

theorem find_index_eq_none_iff {α : Type} (p : α → Bool) (l : List α) :
    find_index p l = none ↔ ∀ a ∈ l, p a = false := by
  induction l with
  | nil => simp [find_index]
  | cons x rest ih =>
    by_cases hx : p x = true
    · simp [find_index, hx]
    · have hx' : p x = false := by
        cases hpx : p x with
        | true => exact absurd hpx hx
        | false => rfl
      simp [find_index, hx', Option.map_eq_none', ih]

/-- The pure content of the `find_present_queue` loop once every query is
known to succeed: first present-capable index in `[i, i + k)`. -/
def pure_find_from (sup : Nat → Bool) (i : Nat) : Nat → Option Nat
  | 0 => none
  | k + 1 => if sup i then some i else pure_find_from sup (i + 1) k

theorem find_present_from_ok (support : Nat → Except Int Bool) (sup : Nat → Bool) :
    ∀ k i, (∀ j, i ≤ j → j < i + k → support j = Except.ok (sup j)) →
      find_present_from support i k = Except.ok (pure_find_from sup i k) := by
  intro k
  induction k with
  | zero => intro i _; rfl
  | succ k ih =>
    intro i h
    have hi : support i = Except.ok (sup i) :=
      h i (Nat.le_refl i) (Nat.lt_add_of_pos_right (Nat.succ_pos k))
    unfold find_present_from pure_find_from
    rw [hi]
    cases hsi : sup i with
    | true => rfl
    | false =>
      simp only [Bool.false_eq_true, if_neg, not_false_iff]
      exact ih (i + 1) fun j h1 h2 =>
        h j (Nat.le_of_succ_le h1) (by omega)

theorem pure_find_from_eq_some_iff (sup : Nat → Bool) :
    ∀ k i m, pure_find_from sup i k = some m ↔
      (i ≤ m ∧ m < i + k ∧ sup m = true ∧ ∀ j, i ≤ j → j < m → sup j = false) := by
  intro k
  induction k with
  | zero =>
    intro i m
    simp only [pure_find_from]
    constructor
    · intro h
      cases h
    · rintro ⟨h1, h2, -, -⟩
      omega
  | succ k ih =>
    intro i m
    unfold pure_find_from
    cases hsi : sup i with
    | true =>
      simp only [if_pos]
      constructor
      · intro h
        have hmi : i = m := by
          cases h
          rfl
        subst hmi
        exact ⟨Nat.le_refl i, by omega, hsi, fun j h1 h2 => by omega⟩
      · rintro ⟨h1, h2, hm, hmin⟩
        rcases Nat.eq_or_lt_of_le h1 with rfl | hlt
        · rfl
        · rw [hmin i (Nat.le_refl i) hlt] at hsi
          cases hsi
    | false =>
      simp only [Bool.false_eq_true, if_neg, not_false_iff]
      rw [ih (i + 1) m]
      constructor
      · rintro ⟨h1, h2, hm, hmin⟩
        refine ⟨by omega, by omega, hm, fun j hj1 hj2 => ?_⟩
        rcases Nat.eq_or_lt_of_le hj1 with rfl | hlt
        · exact hsi
        · exact hmin j hlt hj2
      · rintro ⟨h1, h2, hm, hmin⟩
        have hmi : i ≠ m := by
          rintro rfl
          rw [hm] at hsi
          cases hsi
        refine ⟨by omega, by omega, hm, fun j hj1 hj2 => hmin j (by omega) hj2⟩

/-! ## Claim C1 -/

/-- A required feature set asking for `sampler_anisotropy` only. -/
def c1_required : Features := fun f =>
  match f with
  | FeatureFlag.sampler_anisotropy => 1
  | _ => 0

/-- Hardware features with every flag unavailable (all `Bool32` zero). -/
def c1_available : Features := fun _ => 0

def c1_config : DeviceBuilderConfig :=
  { required_features := some c1_required
    optional_features := none
    required_extensions := []
    optional_extensions := []
    surface := none
    preferred_device := none
    needs_graphics := true }

/-- A candidate whose hardware reports NO features at all, yet has a
graphics-capable family so that only the feature check could reject it. -/
def c1_candidate : PhysicalDevice :=
  { handle := 7
    device_type := DeviceType.discrete_gpu
    features := c1_available
    extensions := Except.ok []
    queue_families := [⟨true, true, false⟩]
    present_support := fun _ => Except.ok false }

/-- Claim C1: a candidate lacking a required feature flag should be
rejected by `is_device_suitable`.  The code does NOT reject it: the macro
`check_required_feature!` tests `!available.field == 0`, and in Rust `!` on
a `u32` is bitwise complement, so the check fires only when the available
value is `u32::MAX` — never on the actual `Bool32` encodings 0/1.  At this
input the required set demands `sampler_anisotropy`, the hardware offers
nothing, and yet `has_required_features` answers `true` and
`is_device_suitable` answers `Ok(true)` where the claim requires `false`. -/
theorem c1_missing_required_feature_not_rejected :
    c1_required FeatureFlag.sampler_anisotropy ≠ 0 ∧
    c1_available FeatureFlag.sampler_anisotropy = 0 ∧
    has_required_features c1_available c1_required = true ∧
    is_device_suitable c1_config c1_candidate = Except.ok true := by
  refine ⟨by decide, rfl, by decide, rfl⟩

/-! ## Claim C2 -/

/-- Hardware offering `sampler_anisotropy`. -/
def c2_available : Features := fun f =>
  match f with
  | FeatureFlag.sampler_anisotropy => 1
  | _ => 0

/-- Required overlay asking for `sampler_anisotropy`. -/
def c2_required : Features := fun f =>
  match f with
  | FeatureFlag.sampler_anisotropy => 1
  | _ => 0

/-- Optional overlay asking for nothing. -/
def c2_optional : Features := fun _ => 0

/-- Claim C2: the final enabled set should satisfy, per flag,
`enabled = available AND (required OR optional)`.  The code applies
`enable_optional_features` first with the required overlay and then with
the optional overlay, and the second pass overwrites each enabled field
with the OPTIONAL value.  At this input `sampler_anisotropy` is available
and required but not optional, so the claim demands it enabled; the code
leaves it disabled (0). -/
theorem c2_required_feature_clobbered_by_optional_pass :
    build_enabled_features c2_available (some c2_required) (some c2_optional)
      FeatureFlag.sampler_anisotropy = 0 ∧
    c2_available FeatureFlag.sampler_anisotropy ≠ 0 ∧
    (c2_required FeatureFlag.sampler_anisotropy ≠ 0 ∨
      c2_optional FeatureFlag.sampler_anisotropy ≠ 0) := by
  refine ⟨rfl, by decide, Or.inl (by decide)⟩

/-! ## Claim C3 -/

/-- A present-support query surface whose every call fails with
`VK_ERROR_SURFACE_LOST_KHR` (-1000000000); any nonzero code works. -/
def c3_support : Nat → Except Int Bool := fun _ => Except.error (-1000000000)

/-- Claim C3 counterexample: with one queue family and a failing
present-support query, `find_present_queue` reports the error, yet the
present-resolution step of `DeviceBuilder::build` returns `Ok(None)` — the
error is not surfaced, refuting the claim that `build` returns it. -/
theorem c3_present_query_error_not_surfaced :
    find_present_queue c3_support 1 = Except.error (-1000000000) ∧
    build_present_stage (some ()) c3_support 1 = Except.ok none := ⟨rfl, rfl⟩

/-- Claim C3 (amended): if the per-queue-family present-support query fails
while resolving the present role after a device has been selected, `build`
does NOT return the error: `unwrap_or_default()` folds the failure into
`None`, the present role is left unassigned, and the build step reports
success for this stage. -/
theorem c3_present_query_error_swallowed
    (support : Nat → Except Int Bool) (n : Nat) (e : Int)
    (hn : 0 < n) (h0 : support 0 = Except.error e) :
    build_present_stage (some ()) support n = Except.ok none := by
  cases n with
  | zero => exact absurd hn (Nat.lt_irrefl 0)
  | succ k =>
    simp [build_present_stage, resolve_present_queue, find_present_queue,
      find_present_from, h0]

/-- Witness for the amended C3 at a concrete failing query. -/
theorem c3_present_query_error_swallowed_witness :
    build_present_stage (some ()) c3_support 1 = Except.ok none :=
  c3_present_query_error_swallowed c3_support 1 (-1000000000)
    (Nat.succ_pos 0) rfl

/-! ## Claim C4 -/

/-- Surface capabilities reporting `min_image_count = 2` and the Vulkan
"unbounded" sentinel `max_image_count = 0` (every Vulkan implementation
reports `min_image_count >= 1`). -/
def c4_capabilities : SurfaceCapabilitiesKHR :=
  { min_image_count := 2
    max_image_count := 0
    current_extent := ⟨640, 480⟩
    min_image_extent := ⟨1, 1⟩
    max_image_extent := ⟨4096, 4096⟩ }

/-- Claim C4: `max_image_count = 0` should mean "no upper clamp", so the
chosen count here should be `2` (target clamped from below by `min = 2`)
for either triple-buffering flag.  The code calls `u32::clamp(target, 2, 0)`
whose `min <= max` assertion fails: it panics (modelled as `none`) instead
of producing any count. -/
theorem c4_unbounded_max_image_count_panics :
    pick_image_count false c4_capabilities = none ∧
    pick_image_count true c4_capabilities = none := ⟨rfl, rfl⟩

/-! ## Claim C5 -/

/-- A builder with no requirements beyond the default mandatory graphics
queue, preferring an integrated GPU. -/
def c5_config : DeviceBuilderConfig :=
  { required_features := none
    optional_features := none
    required_extensions := []
    optional_extensions := []
    surface := none
    preferred_device := some PreferredDevice.integrated
    needs_graphics := true }

/-- Candidate 0: a fully suitable DISCRETE_GPU. -/
def c5_discrete : PhysicalDevice :=
  { handle := 0
    device_type := DeviceType.discrete_gpu
    features := fun _ => 0
    extensions := Except.ok []
    queue_families := [⟨true, true, false⟩]
    present_support := fun _ => Except.ok false }

/-- Candidate 1: a fully suitable INTEGRATED_GPU. -/
def c5_integrated : PhysicalDevice :=
  { handle := 1
    device_type := DeviceType.integrated_gpu
    features := fun _ => 0
    extensions := Except.ok []
    queue_families := [⟨true, true, false⟩]
    present_support := fun _ => Except.ok false }

/-- Claim C5: under the integrated-GPU bias, `select_physical_device`
should first validate the first candidate of the INTEGRATED category
(candidate 1, which is suitable, so it should be returned).  The
`PreferredDevice::Integrated` arm of the source instead scans for
DISCRETE_GPU devices — identically to the Discrete arm — and returns the
discrete candidate 0. -/
theorem c5_integrated_bias_scans_discrete :
    (select_physical_device c5_config [c5_discrete, c5_integrated]).map
        (fun pd => pd.handle) = Except.ok 0 ∧
    c5_discrete.device_type = DeviceType.discrete_gpu ∧
    c5_integrated.device_type = DeviceType.integrated_gpu ∧
    is_device_suitable c5_config c5_integrated = Except.ok true := by
  refine ⟨rfl, rfl, rfl, rfl⟩

/-! ## Claim C8 -/

/-- Claim C8: when the capabilities report a defined current extent (both
components differ from the `u32::MAX` sentinel), `pick_extent` returns the
current extent verbatim for EVERY requested extent (so extent selection is
constant in the requested extent).  When the capabilities report the
let-the-application-choose sentinel `(u32::MAX, u32::MAX)` and the extent
bounds are well-formed, the result is the requested logical extent
(`(800, 600)` if none was set) clamped component-wise into
`[min_image_extent, max_image_extent]`. -/
theorem c8_extent_selection (extent : Option (Nat × Nat))
    (capabilities : SurfaceCapabilitiesKHR) :
    (capabilities.current_extent.width ≠ U32_MAX →
      capabilities.current_extent.height ≠ U32_MAX →
      pick_extent extent capabilities = some capabilities.current_extent) ∧
    (capabilities.current_extent = ⟨U32_MAX, U32_MAX⟩ →
      capabilities.min_image_extent.width ≤ capabilities.max_image_extent.width →
      capabilities.min_image_extent.height ≤ capabilities.max_image_extent.height →
      pick_extent extent capabilities = some
        ⟨min (max (extent.getD (800, 600)).1 capabilities.min_image_extent.width)
            capabilities.max_image_extent.width,
          min (max (extent.getD (800, 600)).2 capabilities.min_image_extent.height)
            capabilities.max_image_extent.height⟩) := by
  constructor
  · intro hw hh
    simp [pick_extent, hw, hh]
  · intro hcur hwb hhb
    have hw : capabilities.current_extent.width = U32_MAX := by rw [hcur]
    simp [pick_extent, hw, u32_clamp, hwb, hhb]

/-- Capabilities with a defined current extent `(640, 480)`. -/
def c8_caps_defined : SurfaceCapabilitiesKHR :=
  { min_image_count := 1
    max_image_count := 8
    current_extent := ⟨640, 480⟩
    min_image_extent := ⟨1, 1⟩
    max_image_extent := ⟨4096, 4096⟩ }

/-- Capabilities with the sentinel current extent and max extent
`(1280, 720)`. -/
def c8_caps_sentinel : SurfaceCapabilitiesKHR :=
  { min_image_count := 1
    max_image_count := 8
    current_extent := ⟨U32_MAX, U32_MAX⟩
    min_image_extent := ⟨1, 1⟩
    max_image_extent := ⟨1280, 720⟩ }

/-- Witness for C8: defined current extent wins over the requested
`(1920, 1080)`; under the sentinel the same request clamps to
`(1280, 720)`. -/
theorem c8_extent_selection_witness :
    pick_extent (some (1920, 1080)) c8_caps_defined = some ⟨640, 480⟩ ∧
    pick_extent (some (1920, 1080)) c8_caps_sentinel = some ⟨1280, 720⟩ := by
  constructor
  · exact ((c8_extent_selection (some (1920, 1080)) c8_caps_defined).1
      (by decide) (by decide)).trans (by decide)
  · exact ((c8_extent_selection (some (1920, 1080)) c8_caps_sentinel).2
      rfl (by decide) (by decide)).trans (by decide)

/-! ## Claim C10 -/

/-- Claim C10: `SwapchainBuilder::build` unconditionally unwraps the
device's graphics and present queue assignments.  If either role is
unassigned the step panics (`none`); when both are assigned the unwraps
cannot panic and the step yields the pair of family indices. -/
theorem c10_swapchain_requires_graphics_and_present
    (graphics_queue present_queue : Option (Nat × Nat)) :
    ((graphics_queue = none ∨ present_queue = none) →
      swapchain_queue_families graphics_queue present_queue = none) ∧
    (∀ g, graphics_queue = some g → ∀ p, present_queue = some p →
      swapchain_queue_families graphics_queue present_queue = some (g.1, p.1)) := by
  constructor
  · rintro (rfl | rfl)
    · rfl
    · cases graphics_queue <;> rfl
  · rintro g rfl p rfl
    rfl

/-- Witness for C10: an unassigned graphics role panics; two assigned roles
yield the two family indices. -/
theorem c10_swapchain_requires_graphics_and_present_witness :
    swapchain_queue_families none (some (0, 55)) = none ∧
    swapchain_queue_families (some (1, 77)) (some (2, 88)) = some (1, 2) :=
  ⟨(c10_swapchain_requires_graphics_and_present none (some (0, 55))).1 (Or.inl rfl),
    (c10_swapchain_requires_graphics_and_present (some (1, 77)) (some (2, 88))).2
      (1, 77) rfl (2, 88) rfl⟩

/-! ## Claim C9 -/

theorem suitable_false_of_missing_required_extension
    (cfg : DeviceBuilderConfig) (pd : PhysicalDevice) (req : String)
    (hreq : req ∈ cfg.required_extensions)
    (exts : List String) (hex : pd.extensions = Except.ok exts)
    (hmiss : req ∉ exts) :
    is_device_suitable cfg pd = Except.ok false := by
  have hne : cfg.required_extensions.isEmpty = false := by
    cases hl : cfg.required_extensions with
    | nil =>
      rw [hl] at hreq
      cases hreq
    | cons a l => rfl
  have hany : (exts.any fun ext => ext == req) = false := by
    rw [Bool.eq_false_iff]
    intro hany
    obtain ⟨e, he, hbe⟩ := List.any_eq_true.mp hany
    exact hmiss (eq_of_beq hbe ▸ he)
  have hall : (cfg.required_extensions.all fun r => exts.any fun ext => ext == r) = false := by
    rw [Bool.eq_false_iff]
    intro hall
    rw [List.all_eq_true] at hall
    rw [hall req hreq] at hany
    cases hany
  unfold is_device_suitable
  rw [hne, hex]
  cases hfo : (match cfg.required_features with
      | some required => has_required_features pd.features required
      | none => true : Bool) with
  | false => rfl
  | true => simp [hall]

theorem scan_suitable_none (cfg : DeviceBuilderConfig)
    (pds : List PhysicalDevice)
    (h : ∀ pd ∈ pds, is_device_suitable cfg pd = Except.ok false) :
    scan_suitable cfg pds = Except.ok none := by
  induction pds with
  | nil => rfl
  | cons pd rest ih =>
    unfold scan_suitable
    rw [h pd (List.mem_cons_self pd rest)]
    exact ih fun q hq => h q (List.mem_cons_of_mem pd hq)

theorem scan_suitable_with_type_none (cfg : DeviceBuilderConfig)
    (ty : DeviceType) (pds : List PhysicalDevice)
    (h : ∀ pd ∈ pds, is_device_suitable cfg pd = Except.ok false) :
    scan_suitable_with_type cfg ty pds = Except.ok none := by
  induction pds with
  | nil => rfl
  | cons pd rest ih =>
    unfold scan_suitable_with_type
    by_cases ht : pd.device_type = ty
    · rw [if_pos ht, h pd (List.mem_cons_self pd rest)]
      exact ih fun q hq => h q (List.mem_cons_of_mem pd hq)
    · rw [if_neg ht]
      exact ih fun q hq => h q (List.mem_cons_of_mem pd hq)

theorem preferred_scan_none (cfg : DeviceBuilderConfig)
    (pds : List PhysicalDevice)
    (h : ∀ pd ∈ pds, is_device_suitable cfg pd = Except.ok false) :
    preferred_scan cfg pds = Except.ok none := by
  unfold preferred_scan
  cases cfg.preferred_device with
  | none => rfl
  | some pref =>
    cases pref with
    | chosen idx =>
      by_cases hlt : idx < pds.length
      · have hg := h (pds.get ⟨idx, hlt⟩) (pds.get_mem idx hlt)
        simp only [List.get_eq_getElem] at hg
        simp [hlt, hg]
      · simp [hlt]
    | discrete => exact scan_suitable_with_type_none cfg DeviceType.discrete_gpu pds h
    | integrated => exact scan_suitable_with_type_none cfg DeviceType.discrete_gpu pds h

/-- Claim C9: when some required device-extension name is absent (by exact
string equality) from every enumerated candidate's supported-extension list
and the enumeration/query calls succeed, the selection step of
`DeviceBuilder::build` fails with `Error::NoSuitableDevices` — and since
every later step of `build` is sequenced behind `?`, `build` returns
exactly that error. -/
theorem c9_missing_extension_no_suitable_devices
    (cfg : DeviceBuilderConfig) (pds : List PhysicalDevice) (req : String)
    (hreq : req ∈ cfg.required_extensions)
    (hall : ∀ pd ∈ pds, ∃ exts, pd.extensions = Except.ok exts ∧ req ∉ exts) :
    build_select cfg (Except.ok pds) = Except.error Error.no_suitable_devices := by
  have hsu : ∀ pd ∈ pds, is_device_suitable cfg pd = Except.ok false := by
    intro pd hpd
    obtain ⟨exts, hex, hm⟩ := hall pd hpd
    exact suitable_false_of_missing_required_extension cfg pd req hreq exts hex hm
  unfold build_select select_physical_device
  simp only [preferred_scan_none cfg pds hsu, scan_suitable_none cfg pds hsu]

def c9_config : DeviceBuilderConfig :=
  { required_features := none
    optional_features := none
    required_extensions := ["VK_KHR_swapchain"]
    optional_extensions := []
    surface := none
    preferred_device := none
    needs_graphics := true }

/-- A candidate supporting no extensions at all. -/
def c9_candidate : PhysicalDevice :=
  { handle := 0
    device_type := DeviceType.discrete_gpu
    features := fun _ => 0
    extensions := Except.ok []
    queue_families := [⟨true, true, false⟩]
    present_support := fun _ => Except.ok false }

/-- Witness for C9: requiring `VK_KHR_swapchain` against one candidate that
supports no extensions fails with `NoSuitableDevices`. -/
theorem c9_missing_extension_no_suitable_devices_witness :
    build_select c9_config (Except.ok [c9_candidate]) =
      Except.error Error.no_suitable_devices := by
  refine c9_missing_extension_no_suitable_devices c9_config [c9_candidate]
    "VK_KHR_swapchain" (by simp [c9_config]) ?_
  intro pd hpd
  rw [List.mem_singleton] at hpd
  subst hpd
  exact ⟨[], rfl, by simp⟩

/-! ## Claim C6 -/

/-- The preference-chain walk of `pick_format` is the standard
first-element-satisfying-a-predicate search, the predicate being
membership in the supported list. -/
theorem find_preferred_format_eq_find? (prefs supported : List SurfaceFormatKHR) :
    find_preferred_format prefs supported =
      prefs.find? fun p => decide (p ∈ supported) := by
  induction prefs with
  | nil => rfl
  | cons x ps ih =>
    unfold find_preferred_format
    rw [show supported.contains x = decide (x ∈ supported) from
      List.elem_eq_mem x supported]
    simp only [List.find?]
    cases hm : decide (x ∈ supported) with
    | true => rfl
    | false => exact ih

/-- Claim C6: for every preference list `P` and non-empty supported list
`S`, `pick_format` succeeds with a format in `S`; the result is the first
entry of `P` followed by the built-in defaults — BGRA8-sRGB (format code
50), RGBA8-sRGB (43), packed-ABGR8-sRGB (57), each with the sRGB-nonlinear
color space (0), in that order — that is present in `S`, and if no entry of
that chain is in `S` it is the first element of `S`. -/
theorem c6_format_selection (P S : List SurfaceFormatKHR) (hS : S ≠ []) :
    ∃ c, pick_format P S = some c ∧ c ∈ S ∧
      (∀ f, (P ++ ([⟨50, 0⟩, ⟨43, 0⟩, ⟨57, 0⟩] : List SurfaceFormatKHR)).find?
          (fun p => decide (p ∈ S)) = some f → c = f) ∧
      ((P ++ ([⟨50, 0⟩, ⟨43, 0⟩, ⟨57, 0⟩] : List SurfaceFormatKHR)).find?
          (fun p => decide (p ∈ S)) = none → S.head? = some c) := by
  have hD : DEFAULT_PREFERRED_FORMATS =
      ([⟨50, 0⟩, ⟨43, 0⟩, ⟨57, 0⟩] : List SurfaceFormatKHR) := rfl
  have hkey : find_preferred_format (P ++ DEFAULT_PREFERRED_FORMATS) S =
      (P ++ ([⟨50, 0⟩, ⟨43, 0⟩, ⟨57, 0⟩] : List SurfaceFormatKHR)).find?
        (fun p => decide (p ∈ S)) := by
    rw [find_preferred_format_eq_find?, hD]
  cases hf : (P ++ ([⟨50, 0⟩, ⟨43, 0⟩, ⟨57, 0⟩] : List SurfaceFormatKHR)).find?
      (fun p => decide (p ∈ S)) with
  | some f =>
    have hp : pick_format P S = some f := by
      unfold pick_format
      rw [hkey, hf]
    refine ⟨f, hp, ?_, ?_, ?_⟩
    · have hpf := List.find?_some hf
      simp only [decide_eq_true_eq] at hpf
      exact hpf
    · intro g hg
      cases hg
      rfl
    · intro hnone
      cases hnone
  | none =>
    obtain ⟨c, hc⟩ : ∃ c, S.head? = some c := by
      cases S with
      | nil => exact absurd rfl hS
      | cons a t => exact ⟨a, rfl⟩
    have hp : pick_format P S = some c := by
      unfold pick_format
      rw [hkey, hf]
      exact hc
    refine ⟨c, hp, List.mem_of_mem_head? hc, ?_, fun _ => hc⟩
    intro g hg
    cases hg

/-- Hardware supporting RGBA8-sRGB then BGRA8-sRGB, in that order. -/
def c6_supported : List SurfaceFormatKHR := [⟨43, 0⟩, ⟨50, 0⟩]

/-- Witness for C6: with no caller preferences, the first built-in default
present in the supported list (BGRA8-sRGB, code 50) wins over the supported
list's own order. -/
theorem c6_format_selection_witness :
    pick_format [] c6_supported = some ⟨50, 0⟩ ∧
    (⟨50, 0⟩ : SurfaceFormatKHR) ∈ c6_supported := by
  obtain ⟨c, hp, hmem, hfirst, -⟩ := c6_format_selection [] c6_supported (by decide)
  have hc : c = ⟨50, 0⟩ := hfirst ⟨50, 0⟩ (by decide)
  subst hc
  exact ⟨hp, hmem⟩

/-! ## Claim C7 -/

/-- Claim C7: in `DeviceBuilder::build`, the graphics role is the first
family with both graphics and compute capability; the compute role the
first family with compute but not graphics, else it aliases the graphics
assignment; the transfer role the first family with transfer capability but
neither graphics nor compute, with no fallback; the present role the
lowest-index family whose present-support query (all assumed to succeed)
answers true, and unassigned when no surface was supplied. -/
theorem c7_queue_role_assignment (surface : Option Unit)
    (qfs : List QueueFamilyProperties) (support : Nat → Except Int Bool)
    (sup : Nat → Bool)
    (hs : ∀ j, j < qfs.length → support j = Except.ok (sup j)) :
    (∀ i, (resolve_queue_roles surface qfs support).1 = some i ↔
      first_index_spec (fun qf => qf.graphics && qf.compute) qfs i) ∧
    (∀ i, (resolve_queue_roles surface qfs support).2.1 = some i ↔
      (first_index_spec (fun qf => qf.compute && !qf.graphics) qfs i ∨
        ((∀ qf ∈ qfs, (qf.compute && !qf.graphics) = false) ∧
          first_index_spec (fun qf => qf.graphics && qf.compute) qfs i))) ∧
    (∀ i, (resolve_queue_roles surface qfs support).2.2.2 = some i ↔
      first_index_spec (fun qf => qf.transfer && !(qf.graphics || qf.compute)) qfs i) ∧
    ((∀ qf ∈ qfs, (qf.transfer && !(qf.graphics || qf.compute)) = false) →
      (resolve_queue_roles surface qfs support).2.2.2 = none) ∧
    (surface = none → (resolve_queue_roles surface qfs support).2.2.1 = none) ∧
    (surface = some () → ∀ i,
      (resolve_queue_roles surface qfs support).2.2.1 = some i ↔
        (i < qfs.length ∧ sup i = true ∧ ∀ j, j < i → sup j = false)) := by
  have hpresent : resolve_present_queue (some ()) support qfs.length =
      pure_find_from sup 0 qfs.length := by
    unfold resolve_present_queue find_present_queue
    rw [find_present_from_ok support sup qfs.length 0 fun j h1 h2 => hs j (by omega)]
  refine ⟨?_, ?_, ?_, ?_, ?_, ?_⟩
  · intro i
    exact find_index_eq_some_iff (fun qf => qf.graphics && qf.compute) qfs i
  · intro i
    show (find_compute_queue qfs).or (find_graphics_queue qfs) = some i ↔ _
    cases hc : find_compute_queue qfs with
    | some k =>
      simp only [Option.or]
      constructor
      · intro h
        have hk : k = i := by
          cases h
          rfl
        rw [hk] at hc
        have hc2 : find_index (fun qf => qf.compute && !qf.graphics) qfs = some i := hc
        exact Or.inl ((find_index_eq_some_iff
          (fun qf => qf.compute && !qf.graphics) qfs i).mp hc2)
      · rintro (hspec | ⟨hnone, -⟩)
        · have h2 : find_compute_queue qfs = some i :=
            (find_index_eq_some_iff _ qfs i).mpr hspec
          rw [hc] at h2
          exact h2
        · have h2 : find_compute_queue qfs = none :=
            (find_index_eq_none_iff _ qfs).mpr hnone
          rw [hc] at h2
          cases h2
    | none =>
      simp only [Option.or]
      constructor
      · intro hg
        have hc2 : find_index (fun qf => qf.compute && !qf.graphics) qfs = none := hc
        have hg2 : find_index (fun qf => qf.graphics && qf.compute) qfs = some i := hg
        exact Or.inr ⟨(find_index_eq_none_iff
            (fun qf => qf.compute && !qf.graphics) qfs).mp hc2,
          (find_index_eq_some_iff (fun qf => qf.graphics && qf.compute) qfs i).mp hg2⟩
      · rintro (hspec | ⟨-, hg⟩)
        · have h2 : find_compute_queue qfs = some i :=
            (find_index_eq_some_iff _ qfs i).mpr hspec
          rw [hc] at h2
          cases h2
        · exact (find_index_eq_some_iff (fun qf => qf.graphics && qf.compute) qfs i).mpr hg
  · intro i
    exact find_index_eq_some_iff (fun qf => qf.transfer && !(qf.graphics || qf.compute)) qfs i
  · intro hall
    exact (find_index_eq_none_iff _ qfs).mpr hall
  · intro hnone
    subst hnone
    rfl
  · intro hsome i
    subst hsome
    show resolve_present_queue (some ()) support qfs.length = some i ↔ _
    rw [hpresent, pure_find_from_eq_some_iff sup qfs.length 0 i]
    constructor
    · rintro ⟨-, h2, h3, h4⟩
      exact ⟨by omega, h3, fun j hj => h4 j (Nat.zero_le j) hj⟩
    · rintro ⟨h1, h2, h3⟩
      exact ⟨Nat.zero_le i, by omega, h2, fun j hj1 hj2 => h3 j hj2⟩

/-- A queue-family table: family 0 graphics+compute, family 1
compute+transfer (no graphics), family 2 transfer-only. -/
def c7_families : List QueueFamilyProperties :=
  [⟨true, true, false⟩, ⟨false, true, true⟩, ⟨false, false, true⟩]

def c7_sup : Nat → Bool := fun i => i == 1

def c7_support : Nat → Except Int Bool := fun i => Except.ok (c7_sup i)

/-- Witness for C7: graphics lands on family 0, compute on family 1 (the
first compute-without-graphics family), present on family 1 (the lowest
present-capable index), transfer on family 2 (the dedicated transfer-only
family). -/
theorem c7_queue_role_assignment_witness :
    (resolve_queue_roles (some ()) c7_families c7_support).1 = some 0 ∧
    (resolve_queue_roles (some ()) c7_families c7_support).2.1 = some 1 ∧
    (resolve_queue_roles (some ()) c7_families c7_support).2.2.1 = some 1 ∧
    (resolve_queue_roles (some ()) c7_families c7_support).2.2.2 = some 2 := by
  obtain ⟨hg, hc, ht, -, -, hp⟩ :=
    c7_queue_role_assignment (some ()) c7_families c7_support c7_sup fun j hj => rfl
  refine ⟨(hg 0).mpr ?_, (hc 1).mpr (Or.inl ?_), (hp rfl 1).mpr ?_, (ht 2).mpr ?_⟩
  · exact ⟨⟨⟨true, true, false⟩, rfl, rfl⟩, fun j hj => absurd hj (Nat.not_lt_zero j)⟩
  · refine ⟨⟨⟨false, true, true⟩, rfl, rfl⟩, fun j hj => ?_⟩
    have hj0 : j = 0 := by omega
    subst hj0
    exact ⟨⟨true, true, false⟩, rfl, rfl⟩
  · refine ⟨by decide, rfl, fun j hj => ?_⟩
    have hj0 : j = 0 := by omega
    subst hj0
    rfl
  · refine ⟨⟨⟨false, false, true⟩, rfl, rfl⟩, fun j hj => ?_⟩
    have hj01 : j = 0 ∨ j = 1 := by omega
    rcases hj01 with rfl | rfl
    · exact ⟨⟨true, true, false⟩, rfl, rfl⟩
    · exact ⟨⟨false, true, true⟩, rfl, rfl⟩

end Ash
